import Mathlib

/-!
Shallow embedding of `src/app.py` (Flask inventory CRUD service backed by a
single SQL table) and proofs about its request-handling behavior.

Modelling conventions:
* A JSON value stored in a record field, or appearing in a request body, is a
  `JVal` (string, null, or number).  A parsed JSON object body is an
  association list `Json`; a request whose payload is not JSON is modelled as
  `none : Option Json` (the handlers check `request.is_json` first).
* Python dict subscription `data[k]` is `jget` (returning `none` models the
  `KeyError` raised on a missing key, which Flask turns into a 500 response,
  since `KeyError` is not an `HTTPException`); `data.get(k)` is `pyGet`
  (absent key and JSON null both become Python `None`, i.e. `JVal.jnull`).
* The persisted table is a `Store`: a list of rows plus the next identity
  value.  Committing is the only point where the store changes; a handler
  that raises before `db.session.commit()` leaves the store untouched
  (Flask-SQLAlchemy rolls the session back at request teardown).
* Responses are a status code plus a body; the HTML bodies Flask generates
  for 404/500 are modelled as an empty body, only the status matters there.
-/

namespace InventoryApp

/-- A JSON / Python value as it flows through the handlers. -/
inductive JVal where
  | jstr : String → JVal
  | jnull : JVal
  | jnum : Int → JVal
deriving DecidableEq, Repr

/-- A parsed JSON object body: association list of keys to values. -/
abbrev Json := List (String × JVal)

/-- Python `data[k]` on a dict: `none` means the key is absent (`KeyError`). -/
def jget (data : Json) (k : String) : Option JVal :=
  (data.find? (fun p => p.1 == k)).map (fun p => p.2)

/-- Python `data.get(k)`: an absent key yields `None` (`JVal.jnull`). -/
def pyGet (data : Json) (k : String) : JVal :=
  (jget data k).getD JVal.jnull

/-- Python f-string rendering of a value, as in `f"inventory {hostname} ..."`. -/
def fstr : JVal → String
  | .jstr s => s
  | .jnull => "None"
  | .jnum n => toString n

/-- One row of the `inventories` table (class `InventoriesModel`,
`src/app.py` lines 48-61): integer primary key `id`, `hostname` declared
`nullable=False`, three nullable string columns. -/
structure InventoriesModel where
  id : Nat
  hostname : JVal
  environment : JVal
  ipaddress : JVal
  applicationname : JVal
deriving DecidableEq, Repr

/-- The persisted state: the rows of the `inventories` table together with
the next value of the identity column.

Modelled from the spec: the id generator itself lives in the database
(`id` "becomes IDENTITY(1,1) on SQL Server", `src/app.py` line 51); per the
spec, `id` is "server-assigned integer, unique, monotonically increasing,
assigned at creation, immutable", so each insert consumes `nextId` and
increments it, and deletion never lowers it. -/
structure Store where
  records : List InventoriesModel
  nextId : Nat
deriving DecidableEq, Repr

/-- The freshly created table: no rows, identity seed 1 (`IDENTITY(1,1)`). -/
def Store.emptyStore : Store := ⟨[], 1⟩

/-- A JSON value appearing in a response body. -/
inductive RVal where
  | vstr : String → RVal
  | vnum : Nat → RVal
  | vobj : Json → RVal
  | vlist : List Json → RVal
deriving DecidableEq, Repr

/-- A JSON response body. -/
abbrev RBody := List (String × RVal)

/-- Lookup in a response body. -/
def rget (b : RBody) (k : String) : Option RVal :=
  (b.find? (fun p => p.1 == k)).map (fun p => p.2)

/-- An HTTP response: status code and JSON body. -/
structure Response where
  status : Nat
  body : RBody
deriving DecidableEq, Repr

/-- The 400 response both handlers return for a non-JSON payload. -/
def notJson : Response :=
  ⟨400, [("error", RVal.vstr "The request payload is not in JSON format")]⟩

/-- Flask's 500 response to an unhandled exception (`KeyError` on a missing
dict key, or the database rejecting a NULL `hostname` at commit); the HTML
error page is modelled as an empty body. -/
def serverError : Response := ⟨500, []⟩

/-- Flask's 404 response produced by `get_or_404`. -/
def notFound : Response := ⟨404, []⟩

/-- `GET /` (`hello`, `src/app.py` lines 75-77). -/
def hello : Response :=
  ⟨200, [("message", RVal.vstr "This is an inventory service")]⟩

/-- The four-field serialization of a row used both by the list route and by
`GET /inventories/{id}` (`src/app.py` lines 98-104 and 115-120); note it does
not include `id`. -/
def recordFields (inv : InventoriesModel) : Json :=
  [("hostname", inv.hostname),
   ("environment", inv.environment),
   ("ipaddress", inv.ipaddress),
   ("applicationname", inv.applicationname)]

/-- `handle_inventories` (`src/app.py` lines 79-107): `POST` creates a row
from `data["hostname"]` and `data.get(...)` for the three optional fields,
then commits; any other method lists all rows.  A missing `hostname` key
raises `KeyError` (500).  A JSON-null `hostname` reaches
`db.session.commit()`, where the database rejects it (column declared
`nullable=False`, line 52; spec §3 invariant: every persisted record has a
non-null `hostname`), so the commit raises and nothing is persisted. -/
def handle_inventories (s : Store) (method : String) (body : Option Json) :
    Store × Response :=
  if method == "POST" then
    match body with
    | none => (s, notJson)
    | some data =>
      match jget data "hostname" with
      | none => (s, serverError)
      | some h =>
        let new_inventory : InventoriesModel :=
          { id := s.nextId
            hostname := h
            environment := pyGet data "environment"
            ipaddress := pyGet data "ipaddress"
            applicationname := pyGet data "applicationname" }
        if h = JVal.jnull then (s, serverError)
        else
          (⟨s.records ++ [new_inventory], s.nextId + 1⟩,
           ⟨201, [("message", RVal.vstr
              ("inventory " ++ fstr new_inventory.hostname ++
               " has been created successfully."))]⟩)
  else
    (s, ⟨200, [("count", RVal.vnum (s.records.map recordFields).length),
               ("inventories", RVal.vlist (s.records.map recordFields)),
               ("message", RVal.vstr "success")]⟩)

/-- `InventoriesModel.query.get_or_404(inventory_id)`: primary-key lookup. -/
def queryGet (s : Store) (inventory_id : Nat) : Option InventoriesModel :=
  s.records.find? (fun r => r.id == inventory_id)

/-- `handle_inventory` (`src/app.py` lines 110-139): `get_or_404`, then
dispatch on the method.  `GET` serializes the row (without its id); `PUT`
reads the four keys with `data[...]` in order (a missing key raises
`KeyError` before `commit`, so the store is unchanged and Flask answers 500;
a JSON-null `hostname` is rejected by the database at commit, again 500 with
no change); the remaining branch deletes the row. -/
def handle_inventory (s : Store) (inventory_id : Nat) (method : String)
    (body : Option Json) : Store × Response :=
  match queryGet s inventory_id with
  | none => (s, notFound)
  | some inventory =>
    if method == "GET" then
      (s, ⟨200, [("message", RVal.vstr "success"),
                 ("inventory", RVal.vobj (recordFields inventory))]⟩)
    else if method == "PUT" then
      match body with
      | none => (s, notJson)
      | some data =>
        match jget data "hostname" with
        | none => (s, serverError)
        | some h =>
          match jget data "environment" with
          | none => (s, serverError)
          | some e =>
            match jget data "ipaddress" with
            | none => (s, serverError)
            | some ip =>
              match jget data "applicationname" with
              | none => (s, serverError)
              | some an =>
                if h = JVal.jnull then (s, serverError)
                else
                  (⟨s.records.map (fun r =>
                      if r.id = inventory_id then
                        { inventory with hostname := h, environment := e,
                                         ipaddress := ip, applicationname := an }
                      else r), s.nextId⟩,
                   ⟨200, [("message", RVal.vstr
                      ("inventory " ++ fstr h ++ " successfully updated"))]⟩)
    else
      (⟨s.records.filter (fun r => r.id ≠ inventory_id), s.nextId⟩,
       ⟨200, [("message", RVal.vstr
          ("inventory " ++ fstr inventory.hostname ++ " successfully deleted."))]⟩)

/-- One HTTP request to the service, already routed. -/
inductive Req where
  | root : Req
  | inventories : String → Option Json → Req
  | inventory : Nat → String → Option Json → Req
deriving DecidableEq, Repr

/-- Handling of one request: the new store and the response. -/
def step (s : Store) : Req → Store × Response
  | .root => (s, hello)
  | .inventories m b => handle_inventories s m b
  | .inventory i m b => handle_inventory s i m b

/-- The store reached from `s` after a sequence of requests. -/
def run : Store → List Req → Store
  | s, [] => s
  | s, q :: qs => run (step s q).1 qs

/-- The id assigned by request `q` in state `s`, when `q` is a create that
succeeds (the identity column advanced); `none` otherwise. -/
def createdId (s : Store) (q : Req) : Option Nat :=
  if s.nextId < (step s q).1.nextId then some s.nextId else none

/-- The ids assigned, in order, while running a request sequence from `s`. -/
def assigned : Store → List Req → List Nat
  | _, [] => []
  | s, q :: qs => (createdId s q).toList ++ assigned (step s q).1 qs

/-! ### The method list of the `/inventories/{id}` route

`src/app.py` line 109 registers the route with
`methods=["GET, PUT, DELETE".replace(" ", "")]`. -/

/-- Python `str.replace(old, new)` over the character list, replacing every
(non-overlapping, left-to-right) occurrence of a non-empty `old`.  The extra
`Nat` argument is structural-recursion fuel; every step consumes at least one
input character, so fuel equal to the input length (as supplied by
`pyReplace`) never runs out. -/
def replaceChars (old new : List Char) : Nat → List Char → List Char
  | _, [] => []
  | 0, l => l
  | fuel + 1, c :: cs =>
    if old ≠ [] ∧ (c :: cs).take old.length = old then
      new ++ replaceChars old new fuel ((c :: cs).drop old.length)
    else
      c :: replaceChars old new fuel cs

/-- Python `s.replace(old, new)` on strings. -/
def pyReplace (s old new : String) : String :=
  ⟨replaceChars old.data new.data s.data.length s.data⟩

/-- The method list the code passes to `app.route` for `/inventories/{id}`:
a one-element list wrapping the result of the string replace
(`src/app.py` line 109). -/
def routeMethodsCode : List String :=
  [pyReplace "GET, PUT, DELETE" " " ""]

/-- Modelled from the spec: the explicit three-element method list
`["GET","PUT","DELETE"]` the spec calls functionally equivalent. -/
def routeMethodsExplicit : List String := ["GET", "PUT", "DELETE"]

/-- Python `str.upper()` (character-wise uppercasing, as werkzeug applies it
to each method name). -/
def strUpper (s : String) : String :=
  ⟨s.data.map Char.toUpper⟩

/-- Werkzeug's processing of a route's `methods` argument: each entry is
uppercased; `HEAD` is allowed whenever `GET` is; `OPTIONS` is always
allowed.  No entry is ever split on commas. -/
def ruleMethods (methods : List String) : List String :=
  let ms := methods.map strUpper
  let ms := if ms.contains "GET" && !(ms.contains "HEAD") then ms ++ ["HEAD"] else ms
  if ms.contains "OPTIONS" then ms else ms ++ ["OPTIONS"]

/-- Whether a request with method `m` matches the route (otherwise werkzeug
answers 405 Method Not Allowed and the handler is never invoked). -/
def routeAccepts (methods : List String) (m : String) : Bool :=
  (ruleMethods methods).contains m

/-! ### General lemmas about the embedding -/

/-- A row found by primary-key lookup carries the looked-up id. -/
theorem queryGet_id {s : Store} {i : Nat} {r : InventoriesModel}
    (h : queryGet s i = some r) : r.id = i := by
  unfold queryGet at h
  simpa using List.find?_some h

/-- Every step either keeps the identity counter or advances it by one
(exactly the successful-create case). -/
theorem step_nextId_cases (s : Store) (q : Req) :
    (step s q).1.nextId = s.nextId ∨ (step s q).1.nextId = s.nextId + 1 := by
  rcases q with _ | ⟨m, b⟩ | ⟨i, m, b⟩ <;>
    simp only [step, hello, handle_inventories, handle_inventory] <;>
    (repeat' split) <;> simp

/-- The identity counter never decreases. -/
theorem step_nextId_mono (s : Store) (q : Req) : s.nextId ≤ (step s q).1.nextId := by
  rcases step_nextId_cases s q with h | h <;> omega

/-- Every id assigned while running a request list from `s` is at least the
identity value `s` starts with. -/
theorem assigned_lower_bound :
    ∀ (qs : List Req) (s : Store), ∀ n ∈ assigned s qs, s.nextId ≤ n := by
  intro qs
  induction qs with
  | nil => intro s n hn; simp [assigned] at hn
  | cons q qs ih =>
    intro s n hn
    simp only [assigned, List.mem_append] at hn
    rcases hn with hn | hn
    · unfold createdId at hn
      split at hn <;> simp at hn
      omega
    · have h1 := ih (step s q).1 n hn
      have h2 := step_nextId_mono s q
      omega

/-- From any starting store, the trace of assigned ids is strictly
increasing. -/
theorem assigned_pairwise (qs : List Req) :
    ∀ s : Store, (assigned s qs).Pairwise (· < ·) := by
  induction qs with
  | nil => intro s; simp [assigned]
  | cons q qs ih =>
    intro s
    simp only [assigned]
    rw [List.pairwise_append]
    refine ⟨?_, ih (step s q).1, ?_⟩
    · cases h : createdId s q <;> simp
    · intro a ha b hb
      have hb' := assigned_lower_bound qs (step s q).1 b hb
      unfold createdId at ha
      split at ha <;> simp at ha
      subst ha
      omega

/-- Each step either leaves the store untouched or answers with a success
status (200 or 201); in particular every branch that mutates the store
commits and reports success. -/
theorem step_unchanged_or_success (s : Store) (q : Req) :
    (step s q).1 = s ∨ (step s q).2.status ≤ 201 := by
  rcases q with _ | ⟨m, b⟩ | ⟨i, m, b⟩ <;>
    simp only [step, hello, handle_inventories, handle_inventory] <;>
    (repeat' split) <;> first | (left; rfl) | (right; simp)

/-! ### Claim theorems -/

/-- Claim C1: the method list built by
`"GET, PUT, DELETE".replace(" ", "")` wrapped in a list is NOT functionally
equivalent to `["GET","PUT","DELETE"]`: it is the one-element list
`["GET,PUT,DELETE"]`, and under werkzeug's method matching the route then
accepts none of GET, PUT, DELETE (each would be answered 405 and never
dispatched), while the explicit list accepts all three. -/
theorem route_method_list_not_equivalent :
    routeMethodsCode = ["GET,PUT,DELETE"] ∧
    routeAccepts routeMethodsCode "GET" = false ∧
    routeAccepts routeMethodsCode "PUT" = false ∧
    routeAccepts routeMethodsCode "DELETE" = false ∧
    routeAccepts routeMethodsExplicit "GET" = true ∧
    routeAccepts routeMethodsExplicit "PUT" = true ∧
    routeAccepts routeMethodsExplicit "DELETE" = true := by decide

/-- Claim C2: a JSON `POST /inventories` body without the key `hostname`
makes `data["hostname"]` raise `KeyError`, so the service answers 500 (a
server error, not the claimed 400) and the store — in particular the record
count — is unchanged. -/
theorem post_missing_hostname_is_500 (s : Store) (data : Json)
    (h : jget data "hostname" = none) :
    step s (Req.inventories "POST" (some data)) = (s, serverError) := by
  simp [step, handle_inventories, h]

/-- Witness for C2: the empty-store, `{"environment": "prod"}` instance. -/
theorem post_missing_hostname_is_500_witness :
    step Store.emptyStore (Req.inventories "POST" (some [("environment", JVal.jstr "prod")]))
      = (Store.emptyStore, serverError) :=
  post_missing_hostname_is_500 Store.emptyStore
    [("environment", JVal.jstr "prod")] (by decide)

/-- Claim C3: a JSON `PUT /inventories/{id}` on an existing record whose
body misses any of the four keys raises `KeyError` at the first missing
`data[...]`, so the service answers 500 (a server error, not the claimed
400); commit is never reached, so the store is unchanged. -/
theorem put_missing_key_is_500 (s : Store) (i : Nat) (r : InventoriesModel)
    (data : Json) (hr : queryGet s i = some r)
    (hmiss : jget data "hostname" = none ∨ jget data "environment" = none ∨
             jget data "ipaddress" = none ∨ jget data "applicationname" = none) :
    step s (Req.inventory i "PUT" (some data)) = (s, serverError) := by
  simp only [step, handle_inventory, hr]
  rcases hmiss with h1 | h2 | h3 | h4
  · simp [h1]
  · cases hh : jget data "hostname" <;> simp [hh, h2]
  · cases hh : jget data "hostname" <;> cases he : jget data "environment" <;>
      simp [hh, he, h3]
  · cases hh : jget data "hostname" <;> cases he : jget data "environment" <;>
      cases hip : jget data "ipaddress" <;> simp [hh, he, hip, h4]

/-- Witness for C3: one record, body `{"hostname": "h2"}` missing the other
three keys. -/
theorem put_missing_key_is_500_witness :
    step ⟨[⟨1, JVal.jstr "h1", JVal.jnull, JVal.jnull, JVal.jnull⟩], 2⟩
      (Req.inventory 1 "PUT" (some [("hostname", JVal.jstr "h2")]))
      = (⟨[⟨1, JVal.jstr "h1", JVal.jnull, JVal.jnull, JVal.jnull⟩], 2⟩, serverError) :=
  put_missing_key_is_500 ⟨[⟨1, JVal.jstr "h1", JVal.jnull, JVal.jnull, JVal.jnull⟩], 2⟩
    1 ⟨1, JVal.jstr "h1", JVal.jnull, JVal.jnull, JVal.jnull⟩
    [("hostname", JVal.jstr "h2")] (by decide) (by decide)

/-- Counterexample for C4: for the persisted record with id 1, the
`GET /inventories/1` response's inventory object is exactly the four string
fields and has no `"id"` key, so it does not contain every field of the
record. -/
theorem get_one_omits_id_counterexample :
    rget (step ⟨[⟨1, JVal.jstr "h1", JVal.jnull, JVal.jnull, JVal.jnull⟩], 2⟩
            (Req.inventory 1 "GET" none)).2.body "inventory"
      = some (RVal.vobj [("hostname", JVal.jstr "h1"), ("environment", JVal.jnull),
                         ("ipaddress", JVal.jnull), ("applicationname", JVal.jnull)]) ∧
    jget [("hostname", JVal.jstr "h1"), ("environment", JVal.jnull),
          ("ipaddress", JVal.jnull), ("applicationname", JVal.jnull)] "id" = none := by
  decide

/-- Claim C4 (amended): for every existing record, `GET /inventories/{id}`
answers 200 with an inventory object holding exactly the record's four
string fields (`hostname`, `environment`, `ipaddress`, `applicationname`);
the record's `id` is not part of the response object. -/
theorem get_one_returns_string_fields (s : Store) (i : Nat)
    (r : InventoriesModel) (hr : queryGet s i = some r) :
    (step s (Req.inventory i "GET" none)).2
      = ⟨200, [("message", RVal.vstr "success"),
               ("inventory", RVal.vobj (recordFields r))]⟩ ∧
    jget (recordFields r) "hostname" = some r.hostname ∧
    jget (recordFields r) "environment" = some r.environment ∧
    jget (recordFields r) "ipaddress" = some r.ipaddress ∧
    jget (recordFields r) "applicationname" = some r.applicationname ∧
    jget (recordFields r) "id" = none := by
  refine ⟨?_, ?_, ?_, ?_, ?_, ?_⟩
  · simp [step, handle_inventory, hr]
  all_goals simp [recordFields, jget]

/-- Witness for C4 (amended): the single-record store. -/
theorem get_one_returns_string_fields_witness :
    (step ⟨[⟨1, JVal.jstr "h1", JVal.jstr "dev", JVal.jnull, JVal.jnull⟩], 2⟩
        (Req.inventory 1 "GET" none)).2
      = ⟨200, [("message", RVal.vstr "success"),
               ("inventory", RVal.vobj (recordFields
                 ⟨1, JVal.jstr "h1", JVal.jstr "dev", JVal.jnull, JVal.jnull⟩))]⟩ ∧
    jget (recordFields ⟨1, JVal.jstr "h1", JVal.jstr "dev", JVal.jnull, JVal.jnull⟩) "id"
      = none := by
  have h := get_one_returns_string_fields
    ⟨[⟨1, JVal.jstr "h1", JVal.jstr "dev", JVal.jnull, JVal.jnull⟩], 2⟩ 1
    ⟨1, JVal.jstr "h1", JVal.jstr "dev", JVal.jnull, JVal.jnull⟩ (by decide)
  exact ⟨h.1, h.2.2.2.2.2⟩

/-- Claim C5: every request answered with an error status (400, 404 or 500)
leaves the persisted record set unchanged: the only store-mutating branches
are the ones that reach `db.session.commit()` and answer 200/201. -/
theorem error_response_leaves_store_unchanged (s : Store) (q : Req)
    (h : 400 ≤ (step s q).2.status) : (step s q).1 = s := by
  rcases step_unchanged_or_success s q with hc | hc
  · exact hc
  · omega

/-- Witness for C5: a `GET` on an id the empty store does not hold is
answered 404 and leaves the store unchanged. -/
theorem error_response_leaves_store_unchanged_witness :
    400 ≤ (step Store.emptyStore (Req.inventory 999999 "GET" none)).2.status ∧
    (step Store.emptyStore (Req.inventory 999999 "GET" none)).1 = Store.emptyStore :=
  ⟨by decide,
   error_response_leaves_store_unchanged Store.emptyStore
     (Req.inventory 999999 "GET" none) (by decide)⟩

/-- Counterexample for C6: a body carrying all four keys but a JSON-null
`hostname` is rejected by the database at commit (`hostname` is declared
`nullable=False`; spec §3 requires every persisted record to have a non-null
hostname), so the request answers 500 and no field of the record is
overwritten — refuting the unconditional-overwrite claim. -/
theorem put_null_hostname_counterexample :
    step ⟨[⟨1, JVal.jstr "h1", JVal.jnull, JVal.jnull, JVal.jnull⟩], 2⟩
      (Req.inventory 1 "PUT" (some
        [("hostname", JVal.jnull), ("environment", JVal.jstr "e"),
         ("ipaddress", JVal.jstr "i"), ("applicationname", JVal.jstr "a")]))
      = (⟨[⟨1, JVal.jstr "h1", JVal.jnull, JVal.jnull, JVal.jnull⟩], 2⟩, serverError) := by
  decide

/-- Claim C6 (amended): for every existing record and every JSON body
containing all four keys with a non-null `hostname` value, `PUT` overwrites
exactly the four string fields of that record with the submitted values and
keeps its id (the replacement row's id is still `i`); the response is the
200 success message. -/
theorem put_overwrites_all_four_fields (s : Store) (i : Nat)
    (r : InventoriesModel) (data : Json) (h e ip an : JVal)
    (hr : queryGet s i = some r)
    (hh : jget data "hostname" = some h) (hnn : h ≠ JVal.jnull)
    (he : jget data "environment" = some e)
    (hip : jget data "ipaddress" = some ip)
    (han : jget data "applicationname" = some an) :
    step s (Req.inventory i "PUT" (some data))
      = (⟨s.records.map (fun x =>
            if x.id = i then
              { r with hostname := h, environment := e,
                       ipaddress := ip, applicationname := an }
            else x), s.nextId⟩,
         ⟨200, [("message", RVal.vstr
            ("inventory " ++ fstr h ++ " successfully updated"))]⟩) ∧
    ({ r with hostname := h, environment := e,
              ipaddress := ip, applicationname := an } : InventoriesModel).id = i := by
  constructor
  · simp [step, handle_inventory, hr, hh, he, hip, han, hnn]
  · simpa using queryGet_id hr

/-- Witness for C6 (amended): replacing the only record's four fields. -/
theorem put_overwrites_all_four_fields_witness :
    step ⟨[⟨1, JVal.jstr "h1", JVal.jnull, JVal.jnull, JVal.jnull⟩], 2⟩
      (Req.inventory 1 "PUT" (some
        [("hostname", JVal.jstr "h2"), ("environment", JVal.jstr "e"),
         ("ipaddress", JVal.jstr "i"), ("applicationname", JVal.jstr "a")]))
      = (⟨[⟨1, JVal.jstr "h2", JVal.jstr "e", JVal.jstr "i", JVal.jstr "a"⟩], 2⟩,
         ⟨200, [("message", RVal.vstr "inventory h2 successfully updated")]⟩) := by
  have h := put_overwrites_all_four_fields
    ⟨[⟨1, JVal.jstr "h1", JVal.jnull, JVal.jnull, JVal.jnull⟩], 2⟩ 1
    ⟨1, JVal.jstr "h1", JVal.jnull, JVal.jnull, JVal.jnull⟩
    [("hostname", JVal.jstr "h2"), ("environment", JVal.jstr "e"),
     ("ipaddress", JVal.jstr "i"), ("applicationname", JVal.jstr "a")]
    (JVal.jstr "h2") (JVal.jstr "e") (JVal.jstr "i") (JVal.jstr "a")
    (by decide) (by decide) (by decide) (by decide) (by decide) (by decide)
  rw [h.1]
  decide

/-- Claim C7: creating a record (JSON body with a string `hostname`) and
immediately reading the assigned id returns exactly the submitted fields:
the submitted hostname and, for each optional field, the submitted value —
where an absent optional key was stored as `None` and comes back as JSON
null (second conjunct).  The hypothesis that every existing id is below the
identity counter holds in every reachable store. -/
theorem create_then_read_returns_submitted_fields (s : Store) (data : Json)
    (name : String)
    (hinv : ∀ r ∈ s.records, r.id < s.nextId)
    (hh : jget data "hostname" = some (JVal.jstr name)) :
    (step (step s (Req.inventories "POST" (some data))).1
        (Req.inventory s.nextId "GET" none)).2
      = ⟨200, [("message", RVal.vstr "success"),
               ("inventory", RVal.vobj
                 [("hostname", JVal.jstr name),
                  ("environment", pyGet data "environment"),
                  ("ipaddress", pyGet data "ipaddress"),
                  ("applicationname", pyGet data "applicationname")])]⟩ ∧
    (∀ k, jget data k = none → pyGet data k = JVal.jnull) := by
  constructor
  · have hpost : (step s (Req.inventories "POST" (some data))).1
        = ⟨s.records ++ [⟨s.nextId, JVal.jstr name, pyGet data "environment",
             pyGet data "ipaddress", pyGet data "applicationname"⟩], s.nextId + 1⟩ := by
      simp [step, handle_inventories, hh]
    rw [hpost]
    simp only [step, handle_inventory, queryGet, List.find?_append]
    have hnone : s.records.find? (fun r => r.id == s.nextId) = none := by
      rw [List.find?_eq_none]
      intro x hx
      simpa using Nat.ne_of_lt (hinv x hx)
    rw [hnone]
    simp [recordFields]
  · intro k hk
    simp [pyGet, hk]

/-- Witness for C7: create `{"hostname": "h1"}` in the empty store, then
read id 1; the absent `environment` comes back as null. -/
theorem create_then_read_returns_submitted_fields_witness :
    (step (step Store.emptyStore
        (Req.inventories "POST" (some [("hostname", JVal.jstr "h1")]))).1
        (Req.inventory 1 "GET" none)).2
      = ⟨200, [("message", RVal.vstr "success"),
               ("inventory", RVal.vobj
                 [("hostname", JVal.jstr "h1"),
                  ("environment", JVal.jnull),
                  ("ipaddress", JVal.jnull),
                  ("applicationname", JVal.jnull)])]⟩ ∧
    pyGet [("hostname", JVal.jstr "h1")] "environment" = JVal.jnull := by
  have h := create_then_read_returns_submitted_fields Store.emptyStore
    [("hostname", JVal.jstr "h1")] "h1" (by decide) (by decide)
  exact ⟨h.1.trans (by decide), h.2 "environment" (by decide)⟩

/-- Claim C8: from the freshly created table, along any request sequence the
trace of ids assigned by successful creates is strictly increasing — each
create (an `assigned` entry, recorded exactly when the identity counter
advances) gets an id strictly greater than every id assigned before it, so
ids are never reused even after deletions. -/
theorem assigned_ids_strictly_increasing (qs : List Req) :
    (assigned Store.emptyStore qs).Pairwise (· < ·) :=
  assigned_pairwise qs Store.emptyStore

/-- Claim C9: `GET /`, `GET /inventories` and `GET /inventories/{id}` (the
latter whether or not the id exists) leave the store exactly unchanged. -/
theorem get_requests_leave_store_unchanged (s : Store) (i : Nat)
    (b₁ b₂ : Option Json) :
    (step s Req.root).1 = s ∧
    (step s (Req.inventories "GET" b₁)).1 = s ∧
    (step s (Req.inventory i "GET" b₂)).1 = s := by
  refine ⟨rfl, rfl, ?_⟩
  simp only [step, handle_inventory]
  cases h : queryGet s i <;> rfl

/-- Claim C10: `POST /inventories` reads only the four known keys — two
JSON bodies agreeing on `hostname`, `environment`, `ipaddress` and
`applicationname` produce identical stores and responses, so extra keys
(including a client-supplied `"id"`) are ignored — and a successful create
appends a row whose id is the server's identity value `s.nextId`. -/
theorem post_reads_only_known_keys (s : Store) (d1 d2 : Json)
    (h1 : jget d1 "hostname" = jget d2 "hostname")
    (h2 : jget d1 "environment" = jget d2 "environment")
    (h3 : jget d1 "ipaddress" = jget d2 "ipaddress")
    (h4 : jget d1 "applicationname" = jget d2 "applicationname") :
    step s (Req.inventories "POST" (some d1))
      = step s (Req.inventories "POST" (some d2)) ∧
    ∀ hn : String, jget d1 "hostname" = some (JVal.jstr hn) →
      (step s (Req.inventories "POST" (some d1))).1.records
        = s.records ++ [⟨s.nextId, JVal.jstr hn, pyGet d1 "environment",
            pyGet d1 "ipaddress", pyGet d1 "applicationname"⟩] := by
  constructor
  · simp only [step, handle_inventories, pyGet, h1, h2, h3, h4]
  · intro hn hhn
    simp [step, handle_inventories, hhn]

/-- Witness for C10: a body with extra `"id"` and `"color"` keys creates
the same state as the body without them, and the created row has the
server-assigned id 1, not the client's 99. -/
theorem post_reads_only_known_keys_witness :
    step Store.emptyStore (Req.inventories "POST"
        (some [("hostname", JVal.jstr "h1"), ("id", JVal.jnum 99),
               ("color", JVal.jstr "blue")]))
      = step Store.emptyStore (Req.inventories "POST"
          (some [("hostname", JVal.jstr "h1")])) ∧
    (step Store.emptyStore (Req.inventories "POST"
        (some [("hostname", JVal.jstr "h1"), ("id", JVal.jnum 99),
               ("color", JVal.jstr "blue")]))).1.records
      = [⟨1, JVal.jstr "h1", JVal.jnull, JVal.jnull, JVal.jnull⟩] := by
  have h := post_reads_only_known_keys Store.emptyStore
    [("hostname", JVal.jstr "h1"), ("id", JVal.jnum 99), ("color", JVal.jstr "blue")]
    [("hostname", JVal.jstr "h1")]
    (by decide) (by decide) (by decide) (by decide)
  exact ⟨h.1, by rw [h.2 "h1" (by decide)]; decide⟩

end InventoryApp
